import Mathlib

/-!
Verification of the cart / order / review / category model logic of the
LearnNodeJS e-commerce backend.  Each mongoose schema method used by the
claims is embedded as a pure Lean function over an explicit state record;
monetary amounts and quantities are modelled as `Int` (exact arithmetic),
ObjectIds as `Nat`, timestamps as `Nat`.
-/

/-- A cart/order line-item variant (`variant: { name: String, option: String }`).
Fields absent in the document are `none`; JS structural equality via
`JSON.stringify` corresponds to decidable equality on this record. -/
structure Variant where
  name : Option String
  option : Option String
deriving DecidableEq, Repr

/-- One line of a cart (`cartItemSchema`).  `id` models the subdocument
`_id` mongoose assigns; `product` is the ObjectId of the referenced product. -/
structure CartItem where
  id : Nat
  product : Nat
  name : String
  sku : Option String
  quantity : Int
  price : Int
  total : Int
  variant : Option Variant
  image : Option String
  available : Bool := true
  maxQuantity : Int := 100
deriving DecidableEq, Repr

/-- Cart discount subdocument. -/
structure Discount where
  code : Option String
  amount : Int
  type : String
  valid : Bool
deriving DecidableEq, Repr

/-- Cart shipping subdocument (only the field the totals use). -/
structure Shipping where
  cost : Int
deriving DecidableEq, Repr

/-- The cart aggregate (`cartSchema`), restricted to the fields the
methods under verification read or write. -/
structure Cart where
  user : Nat
  sessionId : Option String
  items : List CartItem
  subtotal : Int
  tax : Int
  shipping : Shipping
  discount : Discount
  total : Int
  isActive : Bool
deriving DecidableEq, Repr

/-- The product fields `addItem` snapshots
(`product._id/name/sku/price/primaryImage/inventory.maxOrderQuantity`). -/
structure Product where
  id : Nat
  name : String
  sku : Option String
  price : Int
  primaryImage : Option String
  inventoryMaxOrderQuantity : Option Int
deriving Repr

namespace Cart

/-- Virtual `uniqueItems` of `cartSchema`: `this.items.length`. -/
def uniqueItems (c : Cart) : Nat :=
  c.items.length

/-- Virtual `totalItems` of `cartSchema`:
`this.items.reduce((t, item) => t + item.quantity, 0)`. -/
def totalItems (c : Cart) : Int :=
  c.items.foldl (fun t item => t + item.quantity) 0

/-- Embeds `this.items.reduce((total, item) => total + item.total, 0)`. -/
def itemsSubtotal (c : Cart) : Int :=
  c.items.foldl (fun t item => t + item.total) 0

/-- Embeds `cartSchema.methods.calculateTotals`:
`subtotal = Σ item.total; total = subtotal + tax + shipping.cost - discount.amount`. -/
def calculateTotals (c : Cart) : Cart :=
  let s := c.itemsSubtotal
  { c with subtotal := s,
           total := s + c.tax + c.shipping.cost - c.discount.amount }

/-- The JS `product.inventory.maxOrderQuantity || 100`: falsy
(`undefined`/`null`/`0`) falls back to `100`. -/
def orElse100 : Option Int → Int
  | some v => if v = 0 then 100 else v
  | none => 100

/-- Replace the first element of `l` satisfying `p` by `f` applied to it
(the JS pattern `const x = l.find(p); if (x) mutate x`). -/
def updateFirst (p : CartItem → Bool) (f : CartItem → CartItem) :
    List CartItem → List CartItem
  | [] => []
  | x :: xs => if p x then f x :: xs else x :: updateFirst p f xs

/-- The match used by `addItem`/`mergeCarts`: same product ObjectId and
structurally equal variant (`JSON.stringify` comparison). -/
def sameLine (productId : Nat) (variant : Option Variant) (item : CartItem) : Bool :=
  item.product == productId && item.variant == variant

/-- Embeds `cartSchema.methods.addItem(product, quantity, variant)`; `newId`
models the ObjectId mongoose assigns to a newly pushed subdocument. -/
def addItem (c : Cart) (newId : Nat) (product : Product) (quantity : Int)
    (variant : Option Variant) : Cart :=
  let c' :=
    if c.items.any (sameLine product.id variant) then
      { c with items := (updateFirst (sameLine product.id variant)
          (fun item =>
            let q := item.quantity + quantity
            { item with quantity := q, total := q * item.price }) c.items) }
    else
      { c with items := c.items ++
          [{ id := newId,
             product := product.id,
             name := product.name,
             sku := product.sku,
             quantity := quantity,
             price := product.price,
             total := quantity * product.price,
             variant := variant,
             image := product.primaryImage,
             maxQuantity := orElse100 product.inventoryMaxOrderQuantity }] }
  c'.calculateTotals

/-- Embeds `cartSchema.methods.updateItemQuantity(itemId, quantity)`: throws
the error "Item not found in cart" when `this.items.id(itemId)` is null; a
non-positive quantity pulls the line; otherwise clamps to `maxQuantity`. -/
def updateItemQuantity (c : Cart) (itemId : Nat) (quantity : Int) :
    Except String Cart :=
  match c.items.find? (fun item => item.id == itemId) with
  | none => .error "Item not found in cart"
  | some _ =>
    if quantity ≤ 0 then
      .ok ({ c with items := c.items.filter (fun item => item.id != itemId) }).calculateTotals
    else
      .ok ({ c with items := (updateFirst (fun item => item.id == itemId)
          (fun item =>
            let q := min quantity item.maxQuantity
            { item with quantity := q, total := q * item.price }) c.items) }).calculateTotals

/-- Embeds `cartSchema.methods.removeItem(itemId)`: `this.items.pull(itemId)`
then recompute totals; never throws. -/
def removeItem (c : Cart) (itemId : Nat) : Cart :=
  ({ c with items := c.items.filter (fun item => item.id != itemId) }).calculateTotals

/-- Embeds `cartSchema.methods.clear()`. -/
def clear (c : Cart) : Cart :=
  ({ c with items := [] }).calculateTotals

/-- Embeds `cartSchema.methods.applyDiscount(code, amount, type)`. -/
def applyDiscount (c : Cart) (code : String) (amount : Int) (type : String) : Cart :=
  ({ c with discount := { code := some code, amount := amount, type := type, valid := true } }).calculateTotals

/-- Embeds `cartSchema.methods.removeDiscount()`. -/
def removeDiscount (c : Cart) : Cart :=
  ({ c with discount := { code := none, amount := 0, type := "fixed", valid := false } }).calculateTotals

end Cart

/-- One call to a mutating cart method, for reasoning about arbitrary
call sequences. -/
inductive CartOp where
  | addItem (newId : Nat) (product : Product) (quantity : Int) (variant : Option Variant)
  | updateItemQuantity (itemId : Nat) (quantity : Int)
  | removeItem (itemId : Nat)
  | applyDiscount (code : String) (amount : Int) (type : String)
  | removeDiscount
  | clear

namespace Cart

/-- Apply one mutating call; `none` when the call throws
(`updateItemQuantity` on an unknown id). -/
def applyOp (c : Cart) : CartOp → Option Cart
  | .addItem newId product quantity variant => some (c.addItem newId product quantity variant)
  | .updateItemQuantity itemId quantity => (c.updateItemQuantity itemId quantity).toOption
  | .removeItem itemId => some (c.removeItem itemId)
  | .applyDiscount code amount type => some (c.applyDiscount code amount type)
  | .removeDiscount => some c.removeDiscount
  | .clear => some c.clear

/-- Run a sequence of mutating calls, aborting on a throw. -/
def runOps (c : Cart) : List CartOp → Option Cart
  | [] => some c
  | op :: ops => (c.applyOp op).bind (fun c' => runOps c' ops)

/-- The totals relation `calculateTotals` establishes. -/
def totalsInvariant (c : Cart) : Prop :=
  c.subtotal = c.itemsSubtotal ∧
  c.total = c.subtotal + c.tax + c.shipping.cost - c.discount.amount

instance (c : Cart) : Decidable c.totalsInvariant := by
  unfold totalsInvariant; infer_instance

end Cart

namespace Cart

/-- Merge one session-cart line into the user cart (the loop body of
`cartSchema.statics.mergeCarts`): a line with the same product and a
structurally equal variant gets the summed quantity and a total at its
own stored price; otherwise the session line is pushed verbatim. -/
def mergeLine (uc : Cart) (sessionItem : CartItem) : Cart :=
  if uc.items.any (sameLine sessionItem.product sessionItem.variant) then
    { uc with items := (updateFirst (sameLine sessionItem.product sessionItem.variant)
        (fun item =>
          let q := item.quantity + sessionItem.quantity
          { item with quantity := q, total := q * item.price }) uc.items) }
  else
    { uc with items := uc.items ++ [sessionItem] }

/-- What `mergeCarts` leaves behind: the cart it returns, and the saved
state of the session cart when one survives deactivated. -/
structure MergeOutcome where
  returned : Option Cart
  sessionAfter : Option Cart
deriving Repr

/-- Embeds `cartSchema.statics.mergeCarts(sessionId, userId)` on the two
looked-up carts (`none` models a missing active cart).  Saving a cart
runs the pre-save hook, i.e. `calculateTotals`. -/
def mergeCarts (sessionCart userCart : Option Cart) (userId : Nat) : MergeOutcome :=
  match sessionCart with
  | none => { returned := userCart, sessionAfter := none }
  | some sc =>
    match userCart with
    | none =>
      { returned := some ({ sc with user := userId, sessionId := none }).calculateTotals,
        sessionAfter := none }
    | some uc =>
      let merged := sc.items.foldl mergeLine uc
      { returned := some merged.calculateTotals,
        sessionAfter := some ({ sc with isActive := false }).calculateTotals }

end Cart

/-- The `status` enumeration of `orderSchema`. -/
inductive OrderStatus where
  | pending | confirmed | processing | shipped | delivered | cancelled | refunded
deriving DecidableEq, Repr

/-- The `paymentStatus` enumeration of `orderSchema`. -/
inductive PaymentStatus where
  | pending | paid | failed | refunded | partially_refunded
deriving DecidableEq, Repr

/-- One entry of `statusHistory`; `note` is `none` when the pre-save
hook pushes an entry without a note. -/
structure StatusHistoryEntry where
  status : OrderStatus
  timestamp : Nat
  note : Option String
  updatedBy : Option Nat
deriving DecidableEq, Repr

/-- The `refund` subdocument written by `processRefund`. -/
structure Refund where
  amount : Int
  reason : String
  processedAt : Nat
  processedBy : Nat
deriving DecidableEq, Repr

/-- The order aggregate (`orderSchema`), restricted to the fields the
claims touch. -/
structure Order where
  status : OrderStatus
  paymentStatus : PaymentStatus
  statusHistory : List StatusHistoryEntry
  total : Int
  refund : Option Refund
deriving DecidableEq, Repr

namespace Order

/-- Virtual `canBeCancelled`:
`["pending", "confirmed", "processing"].includes(this.status)`. -/
def canBeCancelled (o : Order) : Bool :=
  [OrderStatus.pending, OrderStatus.confirmed, OrderStatus.processing].contains o.status

/-- Virtual `canBeRefunded`:
`this.paymentStatus === "paid" && this.status === "delivered"`. -/
def canBeRefunded (o : Order) : Bool :=
  o.paymentStatus == PaymentStatus.paid && o.status == OrderStatus.delivered

/-- Embeds `orderSchema.methods.updateStatus(newStatus, note, updatedBy)`;
`now` models `new Date()`. -/
def updateStatus (o : Order) (newStatus : OrderStatus) (note : String)
    (updatedBy : Option Nat) (now : Nat) : Order :=
  { o with status := newStatus,
           statusHistory := o.statusHistory ++
             [{ status := newStatus, timestamp := now, note := some note, updatedBy := updatedBy }] }

/-- Embeds `orderSchema.methods.processRefund(amount, reason, processedBy)`;
`now` models `new Date()`. -/
def processRefund (o : Order) (amount : Int) (reason : String)
    (processedBy : Nat) (now : Nat) : Order :=
  { o with refund := some { amount := amount, reason := reason,
                            processedAt := now, processedBy := processedBy },
           paymentStatus := if amount ≥ o.total then PaymentStatus.refunded
                            else PaymentStatus.partially_refunded,
           status := OrderStatus.refunded }

end Order

/-- Embeds the JS `String.prototype.padStart(width, pad)`: prepends the
pad character up to `width`, never truncating. -/
def padStart (s : String) (width : Nat) (pad : Char) : String :=
  String.mk (List.replicate (width - s.length) pad) ++ s

/-- Embeds the JS `s.slice(-2)`: the last two characters (all of `s`
when it is shorter). -/
def sliceLast2 (s : String) : String :=
  s.drop (s.length - 2)

/-- Embeds the `orderNumber` pre-save hook of `orderSchema`: `year` is
`getFullYear()`, `month` is the zero-based `getMonth()`, `day` is
`getDate()`, and `count` is the number of orders counted since local
midnight (`countDocuments({createdAt: {$gte: today}})`). -/
def generateOrderNumber (year month day count : Nat) : String :=
  "ORD" ++ sliceLast2 (toString year)
        ++ padStart (toString (month + 1)) 2 '0'
        ++ padStart (toString day) 2 '0'
        ++ padStart (toString (count + 1)) 4 '0'

/-- The `helpful` subdocument of `reviewSchema`: a vote count and the
voting user ids. -/
structure Helpful where
  count : Int
  users : List Nat
deriving DecidableEq, Repr

/-- The review aggregate (`reviewSchema`), restricted to the `helpful`
vote set the claim is about. -/
structure Review where
  helpful : Helpful
deriving DecidableEq, Repr

namespace Review

/-- Embeds `reviewSchema.methods.markHelpful(userId)` (state change
only; the JS then persists with `save()`). -/
def markHelpful (r : Review) (userId : Nat) : Review :=
  if r.helpful.users.contains userId then r
  else { r with helpful := { count := r.helpful.count + 1,
                             users := r.helpful.users ++ [userId] } }

/-- Embeds `reviewSchema.methods.unmarkHelpful(userId)`: `indexOf`,
`splice(index, 1)` and `Math.max(0, count - 1)` when the id is found. -/
def unmarkHelpful (r : Review) (userId : Nat) : Review :=
  match r.helpful.users.indexOf? userId with
  | none => r
  | some index =>
    { r with helpful := { count := max 0 (r.helpful.count - 1),
                          users := r.helpful.users.eraseIdx index } }

end Review

/-- The `{_id, name, slug}` summary stored in `Category.ancestors`. -/
structure AncestorRef where
  id : Nat
  name : String
  slug : String
deriving DecidableEq, Repr

/-- The category document (`categorySchema`), restricted to the tree
fields the pre-save hook maintains. -/
structure Category where
  id : Nat
  name : String
  slug : String
  parent : Option Nat
  ancestors : List AncestorRef
  level : Nat
deriving DecidableEq, Repr

namespace Category

/-- Embeds the `isModified("parent")` branch of `categorySchema.pre("save")`:
look the new parent up in the collection (`store`); when found, copy its
materialized path one hop; when `parent` is cleared, reset to a root. -/
def updateAncestors (store : List Category) (c : Category) : Category :=
  match c.parent with
  | some pid =>
    match store.find? (fun p => p.id == pid) with
    | some parent =>
      { c with level := parent.level + 1,
               ancestors := parent.ancestors ++ [{ id := parent.id,
                                                   name := parent.name,
                                                   slug := parent.slug }] }
    | none => c
  | none => { c with level := 0, ancestors := [] }

end Category

namespace Cart

@[simp] lemma items_calculateTotals (c : Cart) : (calculateTotals c).items = c.items := rfl

@[simp] lemma tax_calculateTotals (c : Cart) : (calculateTotals c).tax = c.tax := rfl

@[simp] lemma shipping_calculateTotals (c : Cart) : (calculateTotals c).shipping = c.shipping := rfl

@[simp] lemma discount_calculateTotals (c : Cart) : (calculateTotals c).discount = c.discount := rfl

@[simp] lemma user_calculateTotals (c : Cart) : (calculateTotals c).user = c.user := rfl

@[simp] lemma sessionId_calculateTotals (c : Cart) : (calculateTotals c).sessionId = c.sessionId := rfl

@[simp] lemma isActive_calculateTotals (c : Cart) : (calculateTotals c).isActive = c.isActive := rfl

lemma calculateTotals_totalsInvariant (c : Cart) : (calculateTotals c).totalsInvariant :=
  ⟨rfl, rfl⟩

lemma totalsInvariant_applyOp {c c' : Cart} {op : CartOp}
    (h : c.applyOp op = some c') : c'.totalsInvariant := by
  cases op with
  | addItem newId product quantity variant =>
    simp only [applyOp, Option.some.injEq] at h
    subst h
    exact calculateTotals_totalsInvariant _
  | updateItemQuantity itemId quantity =>
    simp only [applyOp] at h
    unfold updateItemQuantity at h
    cases hf : c.items.find? (fun item => item.id == itemId) with
    | none => rw [hf] at h; simp [Except.toOption] at h
    | some x =>
      rw [hf] at h
      by_cases hq : quantity ≤ 0
      · rw [if_pos hq] at h
        simp only [Except.toOption, Option.some.injEq] at h
        subst h
        exact calculateTotals_totalsInvariant _
      · rw [if_neg hq] at h
        simp only [Except.toOption, Option.some.injEq] at h
        subst h
        exact calculateTotals_totalsInvariant _
  | removeItem itemId =>
    simp only [applyOp, Option.some.injEq] at h
    subst h
    exact calculateTotals_totalsInvariant _
  | applyDiscount code amount type =>
    simp only [applyOp, Option.some.injEq] at h
    subst h
    exact calculateTotals_totalsInvariant _
  | removeDiscount =>
    simp only [applyOp, Option.some.injEq] at h
    subst h
    exact calculateTotals_totalsInvariant _
  | clear =>
    simp only [applyOp, Option.some.injEq] at h
    subst h
    exact calculateTotals_totalsInvariant _

lemma totalsInvariant_runOps {ops : List CartOp} {c c' : Cart}
    (hne : ops ≠ []) (h : runOps c ops = some c') : c'.totalsInvariant := by
  induction ops generalizing c with
  | nil => exact absurd rfl hne
  | cons op ops ih =>
    simp only [runOps, Option.bind_eq_some] at h
    obtain ⟨a, ha, hrest⟩ := h
    cases ops with
    | nil =>
      simp only [runOps, Option.some.injEq] at hrest
      subst hrest
      exact totalsInvariant_applyOp ha
    | cons op2 ops2 =>
      exact ih (by simp) hrest

end Cart

/-- A concrete line item used by the closed instantiations below. -/
def exampleItem : CartItem :=
  { id := 1, product := 10, name := "Widget", sku := some "W-1", quantity := 2,
    price := 50, total := 100, variant := none, image := none }

/-- A concrete one-line cart used by the closed instantiations below. -/
def exampleCart : Cart :=
  { user := 7, sessionId := none, items := [exampleItem], subtotal := 100,
    tax := 0, shipping := { cost := 0 },
    discount := { code := none, amount := 0, type := "fixed", valid := false },
    total := 100, isActive := true }

/-- A concrete cart whose discount exceeds everything else. -/
def overDiscountedCart : Cart :=
  { exampleCart with
    discount := { code := some "SAVE500", amount := 500, type := "fixed", valid := true } }

/-- C1: after any (nonempty) sequence of `addItem`, `updateItemQuantity`,
`removeItem`, `applyDiscount`, `removeDiscount` or `clear` calls that does
not throw, the cart satisfies `subtotal = Σ item.total` and
`total = subtotal + tax + shipping.cost - discount.amount`; the computation
has no floor at zero, so a cart whose discount amount exceeds
`subtotal + tax + shipping.cost` ends with a negative total. -/
theorem cart_totals_after_any_ops :
    (∀ (c : Cart) (ops : List CartOp) (c' : Cart), ops ≠ [] →
      Cart.runOps c ops = some c' →
      c'.subtotal = c'.itemsSubtotal ∧
      c'.total = c'.subtotal + c'.tax + c'.shipping.cost - c'.discount.amount) ∧
    (∃ c : Cart, c.discount.amount > c.itemsSubtotal + c.tax + c.shipping.cost ∧
      (Cart.calculateTotals c).total < 0) := by
  constructor
  · intro c ops c' hne h
    exact Cart.totalsInvariant_runOps hne h
  · exact ⟨overDiscountedCart, by decide, by decide⟩

/-- Closed instantiation of `cart_totals_after_any_ops` at a concrete cart
and the one-call sequence `[clear]`. -/
theorem cart_totals_after_any_ops_witness :
    (Cart.clear exampleCart).subtotal = (Cart.clear exampleCart).itemsSubtotal ∧
    (Cart.clear exampleCart).total =
      (Cart.clear exampleCart).subtotal + (Cart.clear exampleCart).tax +
      (Cart.clear exampleCart).shipping.cost - (Cart.clear exampleCart).discount.amount :=
  cart_totals_after_any_ops.1 exampleCart [CartOp.clear] (Cart.clear exampleCart)
    (by simp) rfl

/-- A concrete order used by the closed instantiations below. -/
def exampleOrder : Order :=
  { status := OrderStatus.delivered, paymentStatus := PaymentStatus.paid,
    statusHistory := [], total := 100, refund := none }

/-- C2: `updateStatus` overwrites `status` unconditionally for every
current status and appends exactly one history entry
`{status, timestamp, note, updatedBy}`; the guards are advisory virtuals:
`canBeCancelled` holds exactly on `pending`/`confirmed`/`processing`,
`canBeRefunded` exactly when `paymentStatus = paid` and
`status = delivered`. -/
theorem order_updateStatus_unconditional_and_guards :
    (∀ (o : Order) (newStatus : OrderStatus) (note : String)
       (updatedBy : Option Nat) (now : Nat),
      (o.updateStatus newStatus note updatedBy now).status = newStatus ∧
      (o.updateStatus newStatus note updatedBy now).statusHistory =
        o.statusHistory ++
          [{ status := newStatus, timestamp := now, note := some note,
             updatedBy := updatedBy }]) ∧
    (∀ o : Order, o.canBeCancelled = true ↔
      (o.status = OrderStatus.pending ∨ o.status = OrderStatus.confirmed ∨
       o.status = OrderStatus.processing)) ∧
    (∀ o : Order, o.canBeRefunded = true ↔
      (o.paymentStatus = PaymentStatus.paid ∧ o.status = OrderStatus.delivered)) := by
  refine ⟨fun o newStatus note updatedBy now => ⟨rfl, rfl⟩, fun o => ?_, fun o => ?_⟩
  · cases h : o.status <;> simp [Order.canBeCancelled, h]
  · cases hp : o.paymentStatus <;> cases hs : o.status <;>
      simp [Order.canBeRefunded, hp, hs]

/-- Closed instantiation of `order_updateStatus_unconditional_and_guards`
at a concrete delivered order being cancelled. -/
theorem order_updateStatus_witness :
    (exampleOrder.updateStatus OrderStatus.cancelled "late" (some 3) 9).status =
      OrderStatus.cancelled ∧
    (exampleOrder.updateStatus OrderStatus.cancelled "late" (some 3) 9).statusHistory =
      exampleOrder.statusHistory ++
        [{ status := OrderStatus.cancelled, timestamp := 9, note := some "late",
           updatedBy := some 3 }] :=
  order_updateStatus_unconditional_and_guards.1 exampleOrder
    OrderStatus.cancelled "late" (some 3) 9

/-- C3: `processRefund(amount, reason, processedBy)` records the refund,
sets `paymentStatus` to `refunded` when `amount >= total` and to
`partially_refunded` when `amount < total`, and unconditionally forces
`status = refunded` whatever the prior status was. -/
theorem order_processRefund_spec :
    ∀ (o : Order) (amount : Int) (reason : String) (processedBy now : Nat),
      (o.processRefund amount reason processedBy now).refund =
        some { amount := amount, reason := reason, processedAt := now,
               processedBy := processedBy } ∧
      (amount ≥ o.total →
        (o.processRefund amount reason processedBy now).paymentStatus =
          PaymentStatus.refunded) ∧
      (amount < o.total →
        (o.processRefund amount reason processedBy now).paymentStatus =
          PaymentStatus.partially_refunded) ∧
      (o.processRefund amount reason processedBy now).status = OrderStatus.refunded := by
  intro o amount reason processedBy now
  refine ⟨rfl, fun hge => ?_, fun hlt => ?_, rfl⟩
  · simp [Order.processRefund, hge]
  · simp [Order.processRefund, not_le.mpr hlt]

/-- Closed instantiation of `order_processRefund_spec`: a full refund of
the `100`-total order and a partial refund of `40`. -/
theorem order_processRefund_witness :
    (exampleOrder.processRefund 100 "damaged" 5 0).paymentStatus =
      PaymentStatus.refunded ∧
    (exampleOrder.processRefund 40 "damaged" 5 0).paymentStatus =
      PaymentStatus.partially_refunded ∧
    (exampleOrder.processRefund 40 "damaged" 5 0).status = OrderStatus.refunded :=
  ⟨(order_processRefund_spec exampleOrder 100 "damaged" 5 0).2.1 (by decide),
   (order_processRefund_spec exampleOrder 40 "damaged" 5 0).2.2.1 (by decide),
   (order_processRefund_spec exampleOrder 40 "damaged" 5 0).2.2.2⟩

namespace Cart

lemma updateFirst_append (p : CartItem → Bool) (f : CartItem → CartItem)
    (pre : List CartItem) (x : CartItem) (post : List CartItem)
    (hpre : ∀ y ∈ pre, p y = false) (hx : p x = true) :
    updateFirst p f (pre ++ x :: post) = pre ++ f x :: post := by
  induction pre with
  | nil => simp [updateFirst, hx]
  | cons a as ih =>
    have ha : p a = false := hpre a (List.mem_cons_self a as)
    simp only [List.cons_append, updateFirst, ha, Bool.false_eq_true, if_false,
      List.append_eq]
    rw [ih (fun y hy => hpre y (List.mem_cons_of_mem a hy))]

lemma find?_append_cons {α : Type} (p : α → Bool) (pre : List α) (x : α)
    (post : List α) (hpre : ∀ y ∈ pre, p y = false) (hx : p x = true) :
    List.find? p (pre ++ x :: post) = some x := by
  induction pre with
  | nil => simp [List.find?_cons, hx]
  | cons a as ih =>
    have ha : p a = false := hpre a (List.mem_cons_self a as)
    simp only [List.cons_append, List.find?_cons, ha]
    exact ih (fun y hy => hpre y (List.mem_cons_of_mem a hy))

lemma length_filter_split (l : List CartItem) (itemId : Nat) :
    (l.filter (fun y => y.id != itemId)).length +
      (l.filter (fun y => y.id == itemId)).length = l.length := by
  induction l with
  | nil => rfl
  | cons a as ih =>
    by_cases h : a.id = itemId <;> simp [List.filter_cons, h, ← ih] <;> omega

lemma addItem_totalsInvariant (c : Cart) (newId : Nat) (product : Product)
    (q : Int) (variant : Option Variant) :
    (c.addItem newId product q variant).totalsInvariant := by
  unfold addItem
  exact calculateTotals_totalsInvariant _

lemma addItem_items_of_match (c : Cart) (newId : Nat) (product : Product)
    (q : Int) (variant : Option Variant) (pre post : List CartItem) (x : CartItem)
    (hitems : c.items = pre ++ x :: post)
    (hpre : ∀ y ∈ pre, sameLine product.id variant y = false)
    (hx : sameLine product.id variant x = true) :
    (c.addItem newId product q variant).items =
      pre ++ { x with quantity := x.quantity + q,
                      total := (x.quantity + q) * x.price } :: post := by
  have hany : c.items.any (sameLine product.id variant) = true := by
    rw [hitems]
    refine List.any_eq_true.mpr ⟨x, ?_, hx⟩
    simp
  simp only [addItem, hany, if_true, items_calculateTotals]
  rw [hitems, updateFirst_append _ _ pre x post hpre hx]

lemma addItem_items_of_no_match (c : Cart) (newId : Nat) (product : Product)
    (q : Int) (variant : Option Variant)
    (hno : ∀ y ∈ c.items, sameLine product.id variant y = false) :
    (c.addItem newId product q variant).items =
      c.items ++
        [{ id := newId, product := product.id, name := product.name,
           sku := product.sku, quantity := q, price := product.price,
           total := q * product.price, variant := variant,
           image := product.primaryImage,
           maxQuantity := orElse100 product.inventoryMaxOrderQuantity }] := by
  have hany : c.items.any (sameLine product.id variant) = false := by
    refine List.any_eq_false.mpr ?_
    intro y hy
    simp [hno y hy]
  simp only [addItem, hany, Bool.false_eq_true, if_false, items_calculateTotals]

lemma updateItemQuantity_not_found (c : Cart) (itemId : Nat) (q : Int)
    (h : ∀ y ∈ c.items, y.id ≠ itemId) :
    c.updateItemQuantity itemId q = Except.error "Item not found in cart" := by
  have hf : c.items.find? (fun item => item.id == itemId) = none := by
    rw [List.find?_eq_none]
    intro y hy
    simp [h y hy]
  unfold updateItemQuantity
  rw [hf]

end Cart

namespace Cart

lemma updateItemQuantity_eq_error_of_find_none (c : Cart) (itemId : Nat) (q : Int)
    (hf : c.items.find? (fun item => item.id == itemId) = none) :
    c.updateItemQuantity itemId q = Except.error "Item not found in cart" := by
  unfold updateItemQuantity
  rw [hf]

lemma updateItemQuantity_eq_of_find (c : Cart) (itemId : Nat) (q : Int) (x : CartItem)
    (hf : c.items.find? (fun item => item.id == itemId) = some x) :
    c.updateItemQuantity itemId q =
      (if q ≤ 0 then
        Except.ok ({ c with items := c.items.filter (fun item => item.id != itemId) }).calculateTotals
      else
        Except.ok ({ c with items := (updateFirst (fun item => item.id == itemId)
            (fun item =>
              let qq := min q item.maxQuantity
              { item with quantity := qq, total := qq * item.price }) c.items) }).calculateTotals) := by
  unfold updateItemQuantity
  rw [hf]

end Cart

/-- C5: `updateItemQuantity(itemId, quantity)` raises the error
"Item not found in cart" when no line carries `itemId` (the pure state is
untouched since the error carries no cart); with a matching line, a
non-positive quantity removes the line so `uniqueItems` drops by exactly
one, and a positive quantity is clamped to the line `maxQuantity`, the
line total becomes the new quantity times the price, and in both
non-error branches the totals relation is re-established. -/
theorem cart_updateItemQuantity_spec :
    (∀ (c : Cart) (itemId : Nat) (q : Int),
      (∀ y ∈ c.items, y.id ≠ itemId) →
      c.updateItemQuantity itemId q = Except.error "Item not found in cart") ∧
    (∀ (c : Cart) (itemId : Nat) (q : Int) (c' : Cart), q ≤ 0 →
      (c.items.filter (fun y => y.id == itemId)).length = 1 →
      c.updateItemQuantity itemId q = Except.ok c' →
      c'.uniqueItems + 1 = c.uniqueItems ∧ c'.totalsInvariant) ∧
    (∀ (c : Cart) (itemId : Nat) (q : Int) (pre post : List CartItem) (x : CartItem),
      0 < q → c.items = pre ++ x :: post → (∀ y ∈ pre, y.id ≠ itemId) → x.id = itemId →
      ∃ c', c.updateItemQuantity itemId q = Except.ok c' ∧
        c'.items = pre ++ { x with quantity := min q x.maxQuantity,
                                   total := min q x.maxQuantity * x.price } :: post ∧
        c'.totalsInvariant) := by
  refine ⟨Cart.updateItemQuantity_not_found, ?_, ?_⟩
  · intro c itemId q c' hq hcount hok
    cases hf : c.items.find? (fun item => item.id == itemId) with
    | none =>
      rw [Cart.updateItemQuantity_eq_error_of_find_none c itemId q hf] at hok
      exact absurd hok (by simp)
    | some x =>
      rw [Cart.updateItemQuantity_eq_of_find c itemId q x hf, if_pos hq] at hok
      have hc' : c' =
          ({ c with items := c.items.filter (fun item => item.id != itemId) }).calculateTotals := by
        cases hok
        rfl
      subst hc'
      refine ⟨?_, Cart.calculateTotals_totalsInvariant _⟩
      simp only [Cart.uniqueItems, Cart.items_calculateTotals]
      have hsplit := Cart.length_filter_split c.items itemId
      rw [hcount] at hsplit
      omega
  · intro c itemId q pre post x hq hitems hpre hxid
    have hfind : c.items.find? (fun item => item.id == itemId) = some x := by
      rw [hitems]
      exact Cart.find?_append_cons _ pre x post (fun y hy => by simp [hpre y hy])
        (by simp [hxid])
    refine ⟨({ c with items := (Cart.updateFirst (fun item => item.id == itemId)
        (fun item =>
          let qq := min q item.maxQuantity
          { item with quantity := qq, total := qq * item.price }) c.items) }).calculateTotals,
      ?_, ?_, Cart.calculateTotals_totalsInvariant _⟩
    · rw [Cart.updateItemQuantity_eq_of_find c itemId q x hfind, if_neg (not_le.mpr hq)]
    · simp only [Cart.items_calculateTotals]
      rw [hitems, Cart.updateFirst_append _ _ pre x post (fun y hy => by simp [hpre y hy])
        (by simp [hxid])]

/-- The example line after a quantity update to `200`, clamped to its
`maxQuantity` of `100`. -/
def clampedExampleItem : CartItem :=
  { exampleItem with quantity := min 200 exampleItem.maxQuantity,
                     total := min 200 exampleItem.maxQuantity * exampleItem.price }

/-- Closed instantiation of `cart_updateItemQuantity_spec`: a quantity of
`200` on the one-line example cart is clamped to the line `maxQuantity`
of `100`. -/
theorem cart_updateItemQuantity_witness :
    ∃ c', exampleCart.updateItemQuantity 1 200 = Except.ok c' ∧
      c'.items = [] ++ clampedExampleItem :: [] ∧
      c'.totalsInvariant :=
  cart_updateItemQuantity_spec.2.2 exampleCart 1 200 [] [] exampleItem (by decide) rfl
    (by simp) rfl

/-- C6: `addItem(product, quantity, variant)` increments the quantity of
an existing line with the same product and structurally equal variant and
recomputes that line total at its stored snapshot price; otherwise it
appends a new line snapshotting name, price and sku from the product;
cart totals are recomputed in both cases.  Two adds of quantities 2 and 3
of the same product and variant on a cart without that line leave exactly
one line for it, with quantity 5 and total `5 * product.price`. -/
theorem cart_addItem_spec :
    (∀ (c : Cart) (newId : Nat) (product : Product) (q : Int) (variant : Option Variant)
       (pre post : List CartItem) (x : CartItem),
      c.items = pre ++ x :: post →
      (∀ y ∈ pre, Cart.sameLine product.id variant y = false) →
      Cart.sameLine product.id variant x = true →
      (c.addItem newId product q variant).items =
        pre ++ { x with quantity := x.quantity + q,
                        total := (x.quantity + q) * x.price } :: post ∧
      (c.addItem newId product q variant).totalsInvariant) ∧
    (∀ (c : Cart) (newId : Nat) (product : Product) (q : Int) (variant : Option Variant),
      (∀ y ∈ c.items, Cart.sameLine product.id variant y = false) →
      (c.addItem newId product q variant).items =
        c.items ++
          [{ id := newId, product := product.id, name := product.name,
             sku := product.sku, quantity := q, price := product.price,
             total := q * product.price, variant := variant,
             image := product.primaryImage,
             maxQuantity := Cart.orElse100 product.inventoryMaxOrderQuantity }] ∧
      (c.addItem newId product q variant).totalsInvariant) ∧
    (∀ (c : Cart) (id1 id2 : Nat) (product : Product) (variant : Option Variant),
      (∀ y ∈ c.items, Cart.sameLine product.id variant y = false) →
      ((c.addItem id1 product 2 variant).addItem id2 product 3 variant).items =
        c.items ++
          [{ id := id1, product := product.id, name := product.name,
             sku := product.sku, quantity := 5, price := product.price,
             total := 5 * product.price, variant := variant,
             image := product.primaryImage,
             maxQuantity := Cart.orElse100 product.inventoryMaxOrderQuantity }]) := by
  refine ⟨?_, ?_, ?_⟩
  · intro c newId product q variant pre post x hitems hpre hx
    exact ⟨Cart.addItem_items_of_match c newId product q variant pre post x hitems hpre hx,
           Cart.addItem_totalsInvariant c newId product q variant⟩
  · intro c newId product q variant hno
    exact ⟨Cart.addItem_items_of_no_match c newId product q variant hno,
           Cart.addItem_totalsInvariant c newId product q variant⟩
  · intro c id1 id2 product variant hno
    have h1 := Cart.addItem_items_of_no_match c id1 product 2 variant hno
    have h2 := Cart.addItem_items_of_match (c.addItem id1 product 2 variant) id2 product 3
      variant c.items []
      ({ id := id1, product := product.id, name := product.name, sku := product.sku,
         quantity := 2, price := product.price, total := 2 * product.price,
         variant := variant, image := product.primaryImage,
         maxQuantity := Cart.orElse100 product.inventoryMaxOrderQuantity })
      (by rw [h1]) hno (by simp [Cart.sameLine])
    rw [h2]
    norm_num

/-- A concrete product not present in the example cart. -/
def exampleProduct : Product :=
  { id := 11, name := "Gadget", sku := some "G-1", price := 30,
    primaryImage := none, inventoryMaxOrderQuantity := none }

/-- Closed instantiation of `cart_addItem_spec`: adding quantities 2 then
3 of a fresh product to the one-line example cart yields one new line of
quantity 5 and total `5 * 30`. -/
theorem cart_addItem_witness :
    ((exampleCart.addItem 2 exampleProduct 2 none).addItem 3 exampleProduct 3 none).items =
      exampleCart.items ++
        [{ id := 2, product := exampleProduct.id, name := exampleProduct.name,
           sku := exampleProduct.sku, quantity := 5, price := exampleProduct.price,
           total := 5 * exampleProduct.price, variant := none,
           image := exampleProduct.primaryImage,
           maxQuantity := Cart.orElse100 exampleProduct.inventoryMaxOrderQuantity }] :=
  cart_addItem_spec.2.2 exampleCart 2 3 exampleProduct none (by decide)

/-- C10: `removeItem(itemId)` is total: it always returns the cart with
any matching line pulled and the totals recomputed; when no line matches
it silently succeeds with the items untouched, whereas
`updateItemQuantity` raises for the same unknown `itemId`. -/
theorem cart_removeItem_never_raises :
    (∀ (c : Cart) (itemId : Nat),
      (c.removeItem itemId).items = c.items.filter (fun y => y.id != itemId) ∧
      (c.removeItem itemId).totalsInvariant) ∧
    (∀ (c : Cart) (itemId : Nat), (∀ y ∈ c.items, y.id ≠ itemId) →
      (c.removeItem itemId).items = c.items ∧
      (c.removeItem itemId).totalsInvariant) ∧
    (∀ (c : Cart) (itemId : Nat) (q : Int), (∀ y ∈ c.items, y.id ≠ itemId) →
      c.updateItemQuantity itemId q = Except.error "Item not found in cart") := by
  refine ⟨fun c itemId => ⟨rfl, Cart.calculateTotals_totalsInvariant _⟩,
    fun c itemId h => ⟨?_, Cart.calculateTotals_totalsInvariant _⟩,
    fun c itemId q h => Cart.updateItemQuantity_not_found c itemId q h⟩
  show (c.removeItem itemId).items = c.items
  simp only [Cart.removeItem, Cart.items_calculateTotals]
  refine List.filter_eq_self.mpr ?_
  intro y hy
  simp [h y hy]

/-- Closed instantiation of `cart_removeItem_never_raises`: removing the
unknown id `99` from the example cart leaves its items unchanged while
`updateItemQuantity` with the same id raises. -/
theorem cart_removeItem_witness :
    ((exampleCart.removeItem 99).items = exampleCart.items ∧
      (exampleCart.removeItem 99).totalsInvariant) ∧
    exampleCart.updateItemQuantity 99 1 = Except.error "Item not found in cart" :=
  ⟨cart_removeItem_never_raises.2.1 exampleCart 99 (by decide),
   cart_removeItem_never_raises.2.2 exampleCart 99 1 (by decide)⟩

namespace Cart

lemma mergeLine_items_of_match (uc : Cart) (si : CartItem)
    (pre post : List CartItem) (x : CartItem)
    (hitems : uc.items = pre ++ x :: post)
    (hpre : ∀ y ∈ pre, sameLine si.product si.variant y = false)
    (hx : sameLine si.product si.variant x = true) :
    (mergeLine uc si).items =
      pre ++ { x with quantity := x.quantity + si.quantity,
                      total := (x.quantity + si.quantity) * x.price } :: post := by
  have hany : uc.items.any (sameLine si.product si.variant) = true := by
    rw [hitems]
    refine List.any_eq_true.mpr ⟨x, ?_, hx⟩
    simp
  simp only [mergeLine, hany, if_true]
  rw [hitems, updateFirst_append _ _ pre x post hpre hx]

lemma mergeLine_items_of_no_match (uc : Cart) (si : CartItem)
    (hno : ∀ y ∈ uc.items, sameLine si.product si.variant y = false) :
    (mergeLine uc si).items = uc.items ++ [si] := by
  have hany : uc.items.any (sameLine si.product si.variant) = false := by
    refine List.any_eq_false.mpr ?_
    intro y hy
    simp [hno y hy]
  simp only [mergeLine, hany, Bool.false_eq_true, if_false]

end Cart

/-- C4: merging carts: a session line with an equivalent line (same
product, structurally equal variant) in the user cart makes that line
carry the summed quantity and a total at its own original price; a
session line with no equivalent is appended verbatim.  When both carts
exist the session cart survives deactivated (`isActive = false`) with its
items intact; when no user cart exists, the session cart itself is
reassigned: `user` becomes `userId` and `sessionId` is cleared. -/
theorem cart_mergeCarts_spec :
    (∀ (uc : Cart) (si : CartItem) (pre post : List CartItem) (x : CartItem),
      uc.items = pre ++ x :: post →
      (∀ y ∈ pre, Cart.sameLine si.product si.variant y = false) →
      Cart.sameLine si.product si.variant x = true →
      (Cart.mergeLine uc si).items =
        pre ++ { x with quantity := x.quantity + si.quantity,
                        total := (x.quantity + si.quantity) * x.price } :: post) ∧
    (∀ (uc : Cart) (si : CartItem),
      (∀ y ∈ uc.items, Cart.sameLine si.product si.variant y = false) →
      (Cart.mergeLine uc si).items = uc.items ++ [si]) ∧
    (∀ (sc uc : Cart) (userId : Nat),
      ∃ sca, (Cart.mergeCarts (some sc) (some uc) userId).sessionAfter = some sca ∧
        sca.isActive = false ∧ sca.items = sc.items) ∧
    (∀ (sc : Cart) (userId : Nat),
      ∃ r, (Cart.mergeCarts (some sc) none userId).returned = some r ∧
        r.user = userId ∧ r.sessionId = none ∧ r.items = sc.items ∧
        (Cart.mergeCarts (some sc) none userId).sessionAfter = none) := by
  refine ⟨Cart.mergeLine_items_of_match, Cart.mergeLine_items_of_no_match,
    fun sc uc userId => ⟨_, rfl, rfl, rfl⟩,
    fun sc userId => ⟨_, rfl, rfl, rfl, rfl, rfl⟩⟩

/-- A concrete session cart holding two units of the example product. -/
def sessionCartExample : Cart :=
  { user := 0, sessionId := some "sess-1",
    items := [{ id := 4, product := 11, name := "Gadget", sku := some "G-1",
                quantity := 2, price := 30, total := 60, variant := none,
                image := none }],
    subtotal := 60, tax := 0, shipping := { cost := 0 },
    discount := { code := none, amount := 0, type := "fixed", valid := false },
    total := 60, isActive := true }

/-- Closed instantiation of `cart_mergeCarts_spec`: merging the session
cart with no prior user cart reassigns it to user `7` and clears its
session id; merging into an existing user cart deactivates the session
cart without touching its items. -/
theorem cart_mergeCarts_witness :
    (∃ r, (Cart.mergeCarts (some sessionCartExample) none 7).returned = some r ∧
      r.user = 7 ∧ r.sessionId = none ∧ r.items = sessionCartExample.items ∧
      (Cart.mergeCarts (some sessionCartExample) none 7).sessionAfter = none) ∧
    (∃ sca, (Cart.mergeCarts (some sessionCartExample) (some exampleCart) 7).sessionAfter =
        some sca ∧ sca.isActive = false ∧ sca.items = sessionCartExample.items) :=
  ⟨cart_mergeCarts_spec.2.2.2 sessionCartExample 7,
   cart_mergeCarts_spec.2.2.1 sessionCartExample exampleCart 7⟩

/-- C7: on a save with `parent` modified, a found parent gives
`level = parent.level + 1` and `ancestors = parent.ancestors ++ [parent
summary]`; a cleared parent resets `level = 0`, `ancestors = []`.  The
invariant `level = length ancestors` therefore holds after the save (one
hop: only the saved document is touched), provided the found parent
satisfies it. -/
theorem category_updateAncestors_spec :
    (∀ (store : List Category) (c parent : Category) (pid : Nat),
      c.parent = some pid → store.find? (fun p => p.id == pid) = some parent →
      (Category.updateAncestors store c).level = parent.level + 1 ∧
      (Category.updateAncestors store c).ancestors =
        parent.ancestors ++
          [{ id := parent.id, name := parent.name, slug := parent.slug }]) ∧
    (∀ (store : List Category) (c : Category), c.parent = none →
      (Category.updateAncestors store c).level = 0 ∧
      (Category.updateAncestors store c).ancestors = []) ∧
    (∀ (store : List Category) (c parent : Category) (pid : Nat),
      c.parent = some pid → store.find? (fun p => p.id == pid) = some parent →
      parent.level = parent.ancestors.length →
      (Category.updateAncestors store c).level =
        (Category.updateAncestors store c).ancestors.length) ∧
    (∀ (store : List Category) (c : Category), c.parent = none →
      (Category.updateAncestors store c).level =
        (Category.updateAncestors store c).ancestors.length) := by
  refine ⟨?_, ?_, ?_, ?_⟩
  · intro store c parent pid hp hfind
    simp [Category.updateAncestors, hp, hfind]
  · intro store c hp
    simp [Category.updateAncestors, hp]
  · intro store c parent pid hp hfind hinv
    simp [Category.updateAncestors, hp, hfind, hinv]
  · intro store c hp
    simp [Category.updateAncestors, hp]

/-- A concrete root category satisfying the invariant. -/
def parentCategoryExample : Category :=
  { id := 1, name := "Electronics", slug := "electronics", parent := none,
    ancestors := [], level := 0 }

/-- A concrete category being re-parented under the root. -/
def childCategoryExample : Category :=
  { id := 2, name := "Phones", slug := "phones", parent := some 1,
    ancestors := [], level := 0 }

/-- Closed instantiation of `category_updateAncestors_spec`: saving the
child with parent `1` in a one-category store copies the materialized
path one hop and re-establishes `level = length ancestors`. -/
theorem category_updateAncestors_witness :
    ((Category.updateAncestors [parentCategoryExample] childCategoryExample).level =
        parentCategoryExample.level + 1 ∧
      (Category.updateAncestors [parentCategoryExample] childCategoryExample).ancestors =
        parentCategoryExample.ancestors ++
          [{ id := parentCategoryExample.id, name := parentCategoryExample.name,
             slug := parentCategoryExample.slug }]) ∧
    (Category.updateAncestors [parentCategoryExample] childCategoryExample).level =
      (Category.updateAncestors [parentCategoryExample] childCategoryExample).ancestors.length :=
  ⟨category_updateAncestors_spec.1 [parentCategoryExample] childCategoryExample
      parentCategoryExample 1 rfl (by decide),
   category_updateAncestors_spec.2.2.1 [parentCategoryExample] childCategoryExample
      parentCategoryExample 1 rfl (by decide) rfl⟩

/-- C8: the generated order number is the literal `ORD`, the two-digit
year, month and day of the creation date, then the same-day count plus
one left-padded with zeros to four digits; two creations that read the
same count (and date) produce identical strings — the race the spec
flags. -/
theorem order_generateOrderNumber_spec :
    (∀ year month day count : Nat,
      generateOrderNumber year month day count =
        "ORD" ++ sliceLast2 (toString year)
              ++ padStart (toString (month + 1)) 2 '0'
              ++ padStart (toString day) 2 '0'
              ++ padStart (toString (count + 1)) 4 '0') ∧
    (∀ year month day count1 count2 : Nat, count1 = count2 →
      generateOrderNumber year month day count1 =
        generateOrderNumber year month day count2) ∧
    generateOrderNumber 2025 11 31 41 = "ORD2512310042" := by
  refine ⟨fun year month day count => rfl, fun year month day count1 count2 h => by rw [h], ?_⟩
  rfl

/-- Closed instantiation of `order_generateOrderNumber_spec`: two order
creations on 2025-12-31 that both read count `41` collide on the same
order number. -/
theorem order_generateOrderNumber_witness :
    generateOrderNumber 2025 11 31 41 = generateOrderNumber 2025 11 31 41 :=
  order_generateOrderNumber_spec.2.1 2025 11 31 41 41 rfl

namespace Review

lemma indexOf?_eraseIdx_spec (l : List Nat) (u : Nat) :
    (u ∉ l ∧ l.indexOf? u = none) ∨
    (∃ i, l.indexOf? u = some i ∧ l.eraseIdx i = l.erase u ∧ u ∈ l) := by
  induction l with
  | nil => left; simp
  | cons a as ih =>
    by_cases hau : a = u
    · right
      refine ⟨0, ?_, ?_, by simp [hau]⟩
      · rw [List.indexOf?_cons]
        simp [hau]
      · subst hau
        simp
    · rcases ih with ⟨hnm, hnone⟩ | ⟨i, hidx, herase, hmem⟩
      · left
        refine ⟨by simp [hnm]; exact fun h => hau h.symm, ?_⟩
        rw [List.indexOf?_cons]
        simp [hau, hnone]
      · right
        refine ⟨i + 1, ?_, ?_, by simp [hmem]⟩
        · rw [List.indexOf?_cons]
          simp [hau, hidx]
        · rw [List.eraseIdx_cons_succ, herase, List.erase_cons_tail]
          simp [hau]

lemma contains_eq_true_iff {l : List Nat} {u : Nat} : l.contains u = true ↔ u ∈ l := by
  simp [List.contains, List.elem_iff]

end Review

/-- C9: the helpful vote set is deduplicated by user id: `markHelpful`
adds the id and bumps the count only when the id is absent and is a
no-op otherwise; `unmarkHelpful` removes the id and decrements the count
floored at zero only when the id is present and is a no-op otherwise.
The count stays non-negative, and `count = length users` is preserved by
both operations. -/
theorem review_helpful_spec :
    (∀ (r : Review) (u : Nat), u ∉ r.helpful.users →
      (r.markHelpful u).helpful.users = r.helpful.users ++ [u] ∧
      (r.markHelpful u).helpful.count = r.helpful.count + 1) ∧
    (∀ (r : Review) (u : Nat), u ∈ r.helpful.users → r.markHelpful u = r) ∧
    (∀ (r : Review) (u : Nat), u ∈ r.helpful.users →
      (r.unmarkHelpful u).helpful.users = r.helpful.users.erase u ∧
      (r.unmarkHelpful u).helpful.count = max 0 (r.helpful.count - 1)) ∧
    (∀ (r : Review) (u : Nat), u ∉ r.helpful.users → r.unmarkHelpful u = r) ∧
    (∀ (r : Review) (u : Nat), 0 ≤ r.helpful.count →
      0 ≤ (r.markHelpful u).helpful.count ∧ 0 ≤ (r.unmarkHelpful u).helpful.count) ∧
    (∀ (r : Review) (u : Nat), r.helpful.count = (r.helpful.users.length : Int) →
      (r.markHelpful u).helpful.count = ((r.markHelpful u).helpful.users.length : Int) ∧
      (r.unmarkHelpful u).helpful.count = ((r.unmarkHelpful u).helpful.users.length : Int)) := by
  have hmark_out : ∀ (r : Review) (u : Nat), u ∉ r.helpful.users →
      (r.markHelpful u).helpful.users = r.helpful.users ++ [u] ∧
      (r.markHelpful u).helpful.count = r.helpful.count + 1 := by
    intro r u hm
    simp [Review.markHelpful, hm]
  have hmark_in : ∀ (r : Review) (u : Nat), u ∈ r.helpful.users → r.markHelpful u = r := by
    intro r u hm
    simp [Review.markHelpful, hm]
  have hunmark_in : ∀ (r : Review) (u : Nat), u ∈ r.helpful.users →
      (r.unmarkHelpful u).helpful.users = r.helpful.users.erase u ∧
      (r.unmarkHelpful u).helpful.count = max 0 (r.helpful.count - 1) := by
    intro r u hm
    rcases Review.indexOf?_eraseIdx_spec r.helpful.users u with ⟨hnm, _⟩ | ⟨i, hidx, herase, _⟩
    · exact absurd hm hnm
    · constructor <;> simp [Review.unmarkHelpful, hidx, herase]
  have hunmark_out : ∀ (r : Review) (u : Nat), u ∉ r.helpful.users →
      r.unmarkHelpful u = r := by
    intro r u hm
    rcases Review.indexOf?_eraseIdx_spec r.helpful.users u with ⟨_, hnone⟩ | ⟨i, _, _, hmem⟩
    · simp [Review.unmarkHelpful, hnone]
    · exact absurd hmem hm
  refine ⟨hmark_out, hmark_in, hunmark_in, hunmark_out, ?_, ?_⟩
  · intro r u hnn
    constructor
    · by_cases hm : u ∈ r.helpful.users
      · rw [hmark_in r u hm]
        exact hnn
      · rw [(hmark_out r u hm).2]
        omega
    · by_cases hm : u ∈ r.helpful.users
      · rw [(hunmark_in r u hm).2]
        exact le_max_left 0 _
      · rw [hunmark_out r u hm]
        exact hnn
  · intro r u hcl
    constructor
    · by_cases hm : u ∈ r.helpful.users
      · rw [hmark_in r u hm]
        exact hcl
      · obtain ⟨hu, hc⟩ := hmark_out r u hm
        rw [hu, hc, hcl]
        push_cast [List.length_append]
        simp
    · by_cases hm : u ∈ r.helpful.users
      · obtain ⟨hu, hc⟩ := hunmark_in r u hm
        have hlen : 1 ≤ r.helpful.users.length :=
          List.length_pos.mpr (List.ne_nil_of_mem hm)
        have herase_len : (r.helpful.users.erase u).length =
            r.helpful.users.length - 1 := List.length_erase_of_mem hm
        rw [hu, hc, hcl, herase_len]
        rw [max_eq_right (by omega : (0 : Int) ≤ (r.helpful.users.length : Int) - 1)]
        omega
      · rw [hunmark_out r u hm]
        exact hcl

/-- A concrete review with two helpful votes and a consistent count. -/
def exampleReview : Review :=
  { helpful := { count := 2, users := [5, 8] } }

/-- Closed instantiation of `review_helpful_spec`: marking helpful by the
already-present user `5` changes nothing, marking by the fresh user `9`
appends it and bumps the count, and unmarking user `5` removes it with
the count floored decrement. -/
theorem review_helpful_witness :
    exampleReview.markHelpful 5 = exampleReview ∧
    ((exampleReview.markHelpful 9).helpful.users = exampleReview.helpful.users ++ [9] ∧
      (exampleReview.markHelpful 9).helpful.count = exampleReview.helpful.count + 1) ∧
    ((exampleReview.unmarkHelpful 5).helpful.users = exampleReview.helpful.users.erase 5 ∧
      (exampleReview.unmarkHelpful 5).helpful.count = max 0 (exampleReview.helpful.count - 1)) :=
  ⟨review_helpful_spec.2.1 exampleReview 5 (by decide),
   review_helpful_spec.1 exampleReview 9 (by decide),
   review_helpful_spec.2.2.1 exampleReview 5 (by decide)⟩
